import Mathlib

/-!
Shallow embedding of the manual-call / WebRTC negotiation service of the
emad-humanitarian-aid mobile repository (the `CallService` class of
`src/unnamed/part_000` and the incoming-call guard of
`contexts/CallContext.tsx`), together with proofs of the specification's
testable properties about it.

Modelling conventions:
* Opaque payloads (SDP blobs, ICE candidate descriptors, media streams) are
  modelled as `Nat` handles; the code never inspects them.
* The native peer-connection engine is external (spec section 4.3); its
  signaling-state machine is modelled by `applyLocal` / `applyRemote`
  restricted to the transitions the service exercises, and SDP generation is
  a `PCAdapter` parameter.
* Firestore documents are an association list keyed by `callId`;
  `setDoc(..., merge: true)` is `setDocMerge` (it creates the document if
  absent, with placeholder defaults for the fields the patch does not set).
* Outbound effects that the claims observe are recorded in effect logs:
  `outbox` (messages handed to `sendSignaling`) and `mediaRequests`
  (constraints handed to `getUserMedia`).
* `async`/`await` code is embedded as explicit state passing; `try`/`catch`
  as `Except` threading where a catch handler is reachable.  The sequential
  big-step semantics models each entry point running to completion; the
  event-loop interleaving semantics of the drain loop is modelled separately
  by the `DrainLoop` transition system.
-/

namespace Calls

/-- Call lifecycle status, `CallOffer.status` in the source. -/
inductive CallStatus
  | ringing
  | answered
  | rejected
  | ended
  | missed
deriving DecidableEq, Repr, BEq

/-- Call media kind, `CallOffer.callType` in the source. -/
inductive CallType
  | voice
  | video
deriving DecidableEq, Repr, BEq

/-- The shared call record (`CallOffer` interface).  Display-only fields
(callerName, photos) are omitted; timestamps are `Nat` instants. -/
structure CallRecord where
  callerId : String
  receiverId : String
  callType : CallType
  status : CallStatus
  answeredAt : Option Nat
  endedAt : Option Nat
  duration : Option Nat
deriving DecidableEq, Repr

/-- Signaling message kind (`CallSignaling.type`). -/
inductive SigType
  | offer
  | answer
  | iceCandidate
  | hangup
deriving DecidableEq, Repr, BEq

/-- A signaling message (`CallSignaling`).  The source fields `from`/`to`
are Lean keywords-adjacent, so they are named `fromId`/`toId`; `data` is the
opaque SDP/candidate payload; the server timestamp is not part of the
in-memory value the dispatcher consumes. -/
structure SigMsg where
  callId : String
  type : SigType
  fromId : String
  toId : String
  data : Nat
deriving DecidableEq, Repr

/-- Signaling state of the native peer connection, restricted to the states
the service exercises (`stable`, `have-local-offer`, `have-remote-offer`). -/
inductive SignalingState
  | stable
  | haveLocalOffer
  | haveRemoteOffer
deriving DecidableEq, Repr, BEq

/-- Which kind of session description is being applied. -/
inductive DescType
  | offer
  | answer
deriving DecidableEq, Repr

/-- Model of the native `RTCPeerConnection` state visible through the
adapter contract: the signaling state, the two descriptions, and the list of
candidates handed to `addIceCandidate`, in call order. -/
structure PCState where
  signalingState : SignalingState
  localDesc : Option Nat
  remoteDesc : Option Nat
  applied : List Nat
deriving DecidableEq, Repr

/-- A freshly constructed peer connection. -/
def initialPCState : PCState :=
  { signalingState := SignalingState.stable
    localDesc := none
    remoteDesc := none
    applied := [] }

/-- `setLocalDescription`: the standard WebRTC signaling-state transition
for applying a local description of the given kind. -/
def applyLocal (pc : PCState) (t : DescType) (d : Nat) : PCState :=
  { pc with
    localDesc := some d
    signalingState :=
      match t with
      | DescType.offer => SignalingState.haveLocalOffer
      | DescType.answer => SignalingState.stable }

/-- `setRemoteDescription`: the standard WebRTC signaling-state transition
for applying a remote description of the given kind. -/
def applyRemote (pc : PCState) (t : DescType) (d : Nat) : PCState :=
  { pc with
    remoteDesc := some d
    signalingState :=
      match t with
      | DescType.offer => SignalingState.haveRemoteOffer
      | DescType.answer => SignalingState.stable }

/-- `addIceCandidate`: records the candidate handed to the native engine.
Per-candidate failures are swallowed by the source, so the model records the
attempt; the order of attempts is what the spec constrains. -/
def addIceCandidate (pc : PCState) (c : Nat) : PCState :=
  { pc with applied := pc.applied ++ [c] }

/-- The external SDP generators of the peer-connection adapter
(`createOffer` takes the offerToReceiveVideo flag, `createAnswer` reads the
current connection). -/
structure PCAdapter where
  createOffer : Bool → Nat
  createAnswer : PCState → Nat

/-- Local media constraints handed to `getUserMedia` (audio flag, and
whether a video track is requested). -/
structure MediaReq where
  audio : Bool
  video : Bool
deriving DecidableEq, Repr

/-- The mutable fields of the `CallService` singleton (lines 36-53 of the
source), plus the two effect logs `outbox`/`mediaRequests`.  Streams are
opaque `Nat` handles; `signalingSubscribed` models
`signalingUnsubscribe != null`. -/
structure CallServiceState where
  peerConnection : Option PCState
  localStream : Option Nat
  remoteStream : Option Nat
  signalingQueue : List SigMsg
  isProcessingSignal : Bool
  isRemoteDescriptionSet : Bool
  pendingCandidates : List Nat
  signalingSubscribed : Bool
  currentCallId : String
  outbox : List SigMsg
  mediaRequests : List MediaReq
deriving DecidableEq, Repr

/-- Field initializers of the `CallService` class. -/
def initialCallServiceState : CallServiceState :=
  { peerConnection := none
    localStream := none
    remoteStream := none
    signalingQueue := []
    isProcessingSignal := false
    isRemoteDescriptionSet := false
    pendingCandidates := []
    signalingSubscribed := false
    currentCallId := ""
    outbox := []
    mediaRequests := [] }

/-- `processPendingCandidates` (lines 562-574): when the buffer is nonempty,
each buffered candidate is handed to `addIceCandidate` in order (failures
per candidate are caught and logged) and the buffer is cleared.  When the
peer connection is null the per-candidate null dereference throws inside the
per-candidate try, so every attempt fails and the buffer is still cleared
(unreachable from the actual call sites, which check the connection). -/
def processPendingCandidates (s : CallServiceState) : CallServiceState :=
  if s.pendingCandidates = [] then s
  else
    match s.peerConnection with
    | some pc =>
        { s with
          peerConnection := some (s.pendingCandidates.foldl addIceCandidate pc)
          pendingCandidates := [] }
    | none => { s with pendingCandidates := [] }

/-- `processSignalingMessage` (lines 498-560).  Returns unchanged when no
peer connection exists.  `offer`: apply remote description, mark
`isRemoteDescriptionSet`, flush pending candidates, create and apply the
answer, publish it back to the sender.  `answer`: applied only in
`have-local-offer`, otherwise a logged no-op.  `ice-candidate`: applied
immediately when a remote description is set, buffered otherwise.  The
source has no `hangup` branch, so a hangup message is a no-op. -/
def processSignalingMessage (A : PCAdapter) (message : SigMsg)
    (s : CallServiceState) : CallServiceState :=
  match s.peerConnection with
  | none => s
  | some pc =>
    match message.type with
    | SigType.offer =>
        let s1 := { s with
          peerConnection := some (applyRemote pc DescType.offer message.data)
          isRemoteDescriptionSet := true }
        let s2 := processPendingCandidates s1
        match s2.peerConnection with
        | some pc2 =>
            let answer := A.createAnswer pc2
            { s2 with
              peerConnection := some (applyLocal pc2 DescType.answer answer)
              outbox := s2.outbox ++
                [{ callId := message.callId
                   type := SigType.answer
                   fromId := message.toId
                   toId := message.fromId
                   data := answer }] }
        | none => s2
    | SigType.answer =>
        if pc.signalingState = SignalingState.haveLocalOffer then
          processPendingCandidates
            { s with
              peerConnection := some (applyRemote pc DescType.answer message.data)
              isRemoteDescriptionSet := true }
        else s
    | SigType.iceCandidate =>
        if s.isRemoteDescriptionSet then
          { s with peerConnection := some (addIceCandidate pc message.data) }
        else
          { s with pendingCandidates := s.pendingCandidates ++ [message.data] }
    | SigType.hangup => s

/-- Drain loop body of `processSignalingQueue` (lines 476-496), as a fueled
recursion: while the queue is nonempty and `isProcessingSignal` is false,
shift the head and process it.  Within one iteration the flag is raised and
lowered again and a throttling pause is inserted; in this sequential
big-step semantics the flag netting to false is the observable effect (the
dispatcher never reads the flag).  The fuel is instantiated with the queue
length by `processSignalingQueue`, which suffices because processing never
enqueues (proved below). -/
def processSignalingQueueGo (A : PCAdapter) :
    Nat → CallServiceState → CallServiceState
  | 0, s => s
  | fuel + 1, s =>
    match s.signalingQueue with
    | [] => s
    | message :: rest =>
      if s.isProcessingSignal then s
      else
        processSignalingQueueGo A fuel
          (processSignalingMessage A message { s with signalingQueue := rest })

/-- `processSignalingQueue` entry point. -/
def processSignalingQueue (A : PCAdapter) (s : CallServiceState) :
    CallServiceState :=
  processSignalingQueueGo A s.signalingQueue.length s

/-- The private `handleSignalingMessage` (lines 466-474): enqueue the
message, and when no drain is in progress, drain the queue. -/
def handleSignalingMessage (A : PCAdapter) (message : SigMsg)
    (s : CallServiceState) : CallServiceState :=
  let s1 := { s with signalingQueue := s.signalingQueue ++ [message] }
  if s1.isProcessingSignal then s1 else processSignalingQueue A s1

/-- Runtime dispatch of the duplicated method name.  The class body defines
`handleSignalingMessage` twice (lines 466-474 and 633-635); under JavaScript
class semantics the later definition overwrites the earlier one on the
prototype, so the bound method body is line 634, which awaits
`this.handleSignalingMessage(message)` - that is, itself.  Fuel-indexed
evaluation of that bound method: `none` means no result is produced within
`fuel` call steps. -/
def boundHandleSignalingMessage :
    Nat → SigMsg → CallServiceState → Option CallServiceState
  | 0, _, _ => none
  | fuel + 1, message, s => boundHandleSignalingMessage fuel message s

/-- `closeWebRTCConnection` (lines 640-674): unsubscribe signaling, stop and
release the local stream, close the peer connection, reset the negotiation
session state.  The `callId` argument is only logged by the source. -/
def closeWebRTCConnection (callId : String) (s : CallServiceState) :
    CallServiceState :=
  let _ := callId
  { s with
    signalingSubscribed := false
    localStream := none
    peerConnection := none
    remoteStream := none
    isRemoteDescriptionSet := false
    pendingCandidates := []
    signalingQueue := [] }

/-- `cleanup` (lines 679-681). -/
def cleanup (s : CallServiceState) : CallServiceState :=
  closeWebRTCConnection s.currentCallId s

/-- Continuation of `startConnection` after a local stream was acquired
(lines 398-456): store the stream, create the peer connection, register the
callbacks, subscribe to inbound signaling, and when acting as caller create
and apply the local offer and publish it.  Track attachment and the
expo-av audio-mode configuration have no model-visible state. -/
def startConnectionWithStream (A : PCAdapter)
    (callId userId otherUserId : String) (isCaller isVideoCall : Bool)
    (s : CallServiceState) (stream : Nat) : CallServiceState :=
  let s1 := { s with localStream := some stream }
  let pc0 := initialPCState
  let s2 := { s1 with peerConnection := some pc0, signalingSubscribed := true }
  if isCaller then
    let offer := A.createOffer isVideoCall
    { s2 with
      peerConnection := some (applyLocal pc0 DescType.offer offer)
      outbox := s2.outbox ++
        [{ callId := callId
           type := SigType.offer
           fromId := userId
           toId := otherUserId
           data := offer }] }
  else s2

/-- `startConnection` (lines 329-461).  `gum` is the external
`mediaDevices.getUserMedia`, returning `none` on failure.  Guard: when a
peer connection already exists, return immediately.  Media acquisition is
attempted with the requested constraints; on failure it is retried once
audio-only; a failure of the retry escapes the inner try and reaches the
outer catch, which runs `cleanup` - and the function then resolves normally
(the source never rethrows), so the returned result is always `Except.ok`. -/
def startConnection (gum : MediaReq → Option Nat) (A : PCAdapter)
    (callId userId otherUserId : String) (isCaller : Bool)
    (isVideoCall : Bool) (s : CallServiceState) :
    CallServiceState × Except String Unit :=
  if s.peerConnection.isSome then (s, Except.ok ())
  else
    let req1 : MediaReq := { audio := true, video := isVideoCall }
    let s1 := { s with mediaRequests := s.mediaRequests ++ [req1] }
    match gum req1 with
    | some stream =>
        (startConnectionWithStream A callId userId otherUserId isCaller
          isVideoCall s1 stream, Except.ok ())
    | none =>
        let req2 : MediaReq := { audio := true, video := false }
        let s2 := { s1 with mediaRequests := s1.mediaRequests ++ [req2] }
        match gum req2 with
        | some stream =>
            (startConnectionWithStream A callId userId otherUserId isCaller
              isVideoCall s2 stream, Except.ok ())
        | none => (cleanup s2, Except.ok ())

/-- The Firestore `calls` collection: an association list keyed by
`callId`. -/
def Store := List (String × CallRecord)
deriving DecidableEq

/-- Placeholder for the fields a merge write does not set when it creates a
previously absent document. -/
def emptyCallRecord : CallRecord :=
  { callerId := ""
    receiverId := ""
    callType := CallType.voice
    status := CallStatus.ringing
    answeredAt := none
    endedAt := none
    duration := none }

/-- `getDoc` on the `calls` collection. -/
def getDoc : Store → String → Option CallRecord
  | [], _ => none
  | (k, r) :: rest, callId => if k = callId then some r else getDoc rest callId

/-- `setDoc(..., merge: true)`: patch the existing document, or create it
from the placeholder when absent. -/
def setDocMerge : Store → String → (CallRecord → CallRecord) → Store
  | [], callId, patch => [(callId, patch emptyCallRecord)]
  | (k, r) :: rest, callId, patch =>
      if k = callId then (k, patch r) :: rest
      else (k, r) :: setDocMerge rest callId patch

/-- Business-rule failures surfaced by the lifecycle operations (the source
returns the Arabic user-facing strings; spec section 7 names them
`CallNotFound` / `CallNotActive`). -/
inductive CallError
  | callNotFound
  | callNotActive
deriving DecidableEq, Repr

/-- `acceptCall` (lines 102-136).  Note the order in the source: line 104
assigns `this.currentCallId = callId` before the record is read, so both
failure paths still mutate the service's local state.  On success the
record is patched to `answered` and the connection is started as callee
with the recorded call type. -/
def acceptCall (gum : MediaReq → Option Nat) (A : PCAdapter) (now : Nat)
    (callId userId : String) (st : Store) (s : CallServiceState) :
    Store × CallServiceState × Except CallError Unit :=
  let s0 := { s with currentCallId := callId }
  match getDoc st callId with
  | none => (st, s0, Except.error CallError.callNotFound)
  | some callData =>
    if callData.status ≠ CallStatus.ringing then
      (st, s0, Except.error CallError.callNotActive)
    else
      let st1 := setDocMerge st callId fun r =>
        { r with status := CallStatus.answered, answeredAt := some now }
      let isVideoCall := callData.callType = CallType.video
      let (s1, _) := startConnection gum A callId userId callData.callerId
        false isVideoCall s0
      (st1, s1, Except.ok ())

/-- `rejectCall` (lines 141-158). -/
def rejectCall (now : Nat) (callId : String) (st : Store) :
    Store × Except CallError Unit :=
  (setDocMerge st callId fun r =>
    { r with status := CallStatus.rejected, endedAt := some now },
   Except.ok ())

/-- `endCall` (lines 163-183): unconditionally merge-write
`status: ended`, `endedAt`, `duration || 0`, then run the WebRTC
teardown. -/
def endCall (now : Nat) (callId : String) (duration : Option Nat)
    (st : Store) (s : CallServiceState) :
    Store × CallServiceState × Except CallError Unit :=
  let st1 := setDocMerge st callId fun r =>
    { r with
      status := CallStatus.ended
      endedAt := some now
      duration := some (duration.getD 0) }
  (st1, closeWebRTCConnection callId s, Except.ok ())

end Calls

namespace Calls.DrainLoop

/-!
Event-loop interleaving semantics of the Negotiation Queue's drain loop
(`handleSignalingMessage` / `processSignalingQueue`, lines 466-496).

JavaScript is single threaded and interleaves only at `await` suspension
points, so the loop decomposes into atomic segments.  A drain task is in one
of three program points:

* `nCheck` counts tasks at the `while` condition check; the segment from
  checking `queue.length > 0 && !isProcessingSignal` through setting the
  flag and shifting the head up to entering the dispatch is synchronous.
* `nDispatch` counts tasks currently awaiting
  `processSignalingMessage` (the dispatch may suspend internally many
  times; it stays at this point until it completes).
* `nPause` counts tasks awaiting the 50 ms inter-message `setTimeout`.

Completing a dispatch lowers the flag and synchronously either exits the
loop (empty queue) or enters the pause.  A message arrival
(`handleSignalingMessage`) appends to the queue and, when the flag is down,
spawns a fresh drain task at the condition check.  The model allows
arbitrary interleaving of arrivals with every task step, which is a
superset of the real event-loop schedules, so the invariant proved over it
holds of the source.
-/

/-- Global state of the queue, the mutual-exclusion flag, and the
program-point occupancy of all live drain tasks (tasks are symmetric, so a
multiset of program points is represented by counters). -/
structure LoopState where
  queue : List Calls.SigMsg
  processing : Bool
  nCheck : Nat
  nDispatch : Nat
  nPause : Nat
deriving DecidableEq, Repr

/-- The quiescent initial state: empty queue, flag down, no tasks. -/
def init : LoopState :=
  { queue := [], processing := false, nCheck := 0, nDispatch := 0, nPause := 0 }

/-- One atomic event of the event loop. -/
inductive Step : LoopState → LoopState → Prop
  | arriveBusy (s : LoopState) (m : Calls.SigMsg)
      (h : s.processing = true) :
      Step s { s with queue := s.queue ++ [m] }
  | arriveIdle (s : LoopState) (m : Calls.SigMsg)
      (h : s.processing = false) :
      Step s { s with queue := s.queue ++ [m], nCheck := s.nCheck + 1 }
  | checkExit (s : LoopState) (h : 0 < s.nCheck)
      (hcond : s.queue = [] ∨ s.processing = true) :
      Step s { s with nCheck := s.nCheck - 1 }
  | checkEnter (s : LoopState) (m : Calls.SigMsg) (rest : List Calls.SigMsg)
      (h : 0 < s.nCheck) (hq : s.queue = m :: rest)
      (hp : s.processing = false) :
      Step s { s with
        queue := rest
        processing := true
        nCheck := s.nCheck - 1
        nDispatch := s.nDispatch + 1 }
  | dispatchExit (s : LoopState) (h : 0 < s.nDispatch) (hq : s.queue = []) :
      Step s { s with processing := false, nDispatch := s.nDispatch - 1 }
  | dispatchPause (s : LoopState) (h : 0 < s.nDispatch) (hq : s.queue ≠ []) :
      Step s { s with
        processing := false
        nDispatch := s.nDispatch - 1
        nPause := s.nPause + 1 }
  | pauseFire (s : LoopState) (h : 0 < s.nPause) :
      Step s { s with nPause := s.nPause - 1, nCheck := s.nCheck + 1 }

/-- Reachability from the quiescent initial state. -/
def Reachable (s : LoopState) : Prop :=
  Relation.ReflTransGen Step init s

end Calls.DrainLoop

namespace Calls.Provider

/-!
Model of the incoming-call path of `CallProvider`
(`contexts/CallContext.tsx`, lines 226-270).  The subscription callback
passed to `callService.subscribeToIncomingCalls` is created inside a
`useEffect` whose dependency array is `[user]`, so the `manualCall` and
`activeCall` values it reads are the ones captured from the render in which
that effect last ran (at mount they are `null`); later state updates do not
re-create the callback.  The model therefore distinguishes the captured
snapshot from the provider's current state.
-/

/-- The fields of a manual call the guard consults. -/
structure ManualCallRef where
  callId : String
  status : Calls.CallStatus
deriving DecidableEq, Repr

/-- Values of `manualCall` / `activeCall` captured by the subscription
closure when its `useEffect` (deps `[user]`) ran. -/
structure ProviderSnapshot where
  manualCall : Option ManualCallRef
  activeCall : Bool
deriving DecidableEq, Repr

/-- Current provider state, plus the effect log of `rejectCall` writes. -/
structure ProviderState where
  manualCall : Option ManualCallRef
  activeCall : Bool
  ringtonePlaying : Bool
  rejectWrites : List String
deriving DecidableEq, Repr

/-- The incoming-call callback (lines 234-259): compute `isManualBusy` from
the captured values; reject and return when busy, otherwise ring and surface
the call.  The 45-second incoming-ring timer it also arms is not modelled
here. -/
def onIncomingCall (snap : ProviderSnapshot) (call : ManualCallRef)
    (st : ProviderState) : ProviderState :=
  let isManualBusy : Bool :=
    match snap.manualCall with
    | some mc =>
        ((mc.status == Calls.CallStatus.ringing) ||
         (mc.status == Calls.CallStatus.answered)) &&
        (mc.callId != call.callId)
    | none => false
  if snap.activeCall || isManualBusy then
    { st with rejectWrites := st.rejectWrites ++ [call.callId] }
  else
    { st with ringtonePlaying := true, manualCall := some call }

end Calls.Provider

namespace Calls

/-!
Concrete fixtures: a media oracle that always fails, a concrete
peer-connection adapter, and small concrete records, states and messages
used by the witness and counterexample theorems below.
-/

def gumNone : MediaReq → Option Nat := fun _ => none

def A0 : PCAdapter :=
  { createOffer := fun _ => 100, createAnswer := fun _ => 200 }

def recAnswered : CallRecord :=
  { callerId := "a", receiverId := "b", callType := CallType.voice
    status := CallStatus.answered, answeredAt := some 1, endedAt := none
    duration := none }

def stAnswered : Store := [("c1", recAnswered)]

def recRejected : CallRecord :=
  { callerId := "a", receiverId := "b", callType := CallType.voice
    status := CallStatus.rejected, answeredAt := none, endedAt := some 5
    duration := none }

def stRejected : Store := [("c1", recRejected)]

def sIce : CallServiceState :=
  { initialCallServiceState with peerConnection := some initialPCState }

def sPend : CallServiceState :=
  { initialCallServiceState with
    peerConnection := some initialPCState, pendingCandidates := [7, 8] }

def pcHLO : PCState :=
  { initialPCState with signalingState := SignalingState.haveLocalOffer }

def sAns : CallServiceState :=
  { initialCallServiceState with
    peerConnection := some pcHLO, pendingCandidates := [7, 8] }

def mIce : SigMsg :=
  { callId := "c", type := SigType.iceCandidate, fromId := "a", toId := "b"
    data := 7 }

def mOffer : SigMsg :=
  { callId := "c", type := SigType.offer, fromId := "a", toId := "b"
    data := 42 }

def mAnswer : SigMsg :=
  { callId := "c", type := SigType.answer, fromId := "a", toId := "b"
    data := 43 }

end Calls


namespace Calls

theorem foldl_addIceCandidate_applied (cs : List Nat) (pc : PCState) :
    (cs.foldl addIceCandidate pc).applied = pc.applied ++ cs := by
  induction cs generalizing pc with
  | nil => simp
  | cons c cs ih => simp [addIceCandidate, ih, List.append_assoc]

theorem processPendingCandidates_some (s : CallServiceState) (pc : PCState)
    (h : s.peerConnection = some pc) :
    processPendingCandidates s =
      { s with
        peerConnection := some (s.pendingCandidates.foldl addIceCandidate pc)
        pendingCandidates := [] } := by
  rcases s with ⟨a, b, c, d, e, f, g, h2, i, j, k⟩
  simp only at h
  subst h
  by_cases hpend : g = []
  · subst hpend; simp [processPendingCandidates]
  · simp [processPendingCandidates, hpend]

theorem processPendingCandidates_signalingQueue (s : CallServiceState) :
    (processPendingCandidates s).signalingQueue = s.signalingQueue := by
  unfold processPendingCandidates
  split
  · rfl
  · split <;> rfl

theorem processPendingCandidates_isProcessingSignal (s : CallServiceState) :
    (processPendingCandidates s).isProcessingSignal = s.isProcessingSignal := by
  unfold processPendingCandidates
  split
  · rfl
  · split <;> rfl

theorem processSignalingMessage_signalingQueue (A : PCAdapter) (m : SigMsg)
    (s : CallServiceState) :
    (processSignalingMessage A m s).signalingQueue = s.signalingQueue := by
  unfold processSignalingMessage
  split
  · rfl
  · split
    · dsimp only
      split <;> simp [processPendingCandidates_signalingQueue]
    · split
      · exact processPendingCandidates_signalingQueue _
      · rfl
    · split <;> rfl
    · rfl

end Calls

namespace Calls

theorem processSignalingMessage_isProcessingSignal (A : PCAdapter) (m : SigMsg)
    (s : CallServiceState) :
    (processSignalingMessage A m s).isProcessingSignal = s.isProcessingSignal := by
  unfold processSignalingMessage
  split
  · rfl
  · split
    · dsimp only
      split <;> simp [processPendingCandidates_isProcessingSignal]
    · split
      · exact processPendingCandidates_isProcessingSignal _
      · rfl
    · split <;> rfl
    · rfl

theorem processPendingCandidates_setQueue (s : CallServiceState)
    (q : List SigMsg) :
    processPendingCandidates { s with signalingQueue := q } =
      { processPendingCandidates s with signalingQueue := q } := by
  unfold processPendingCandidates
  by_cases hpend : s.pendingCandidates = [] <;>
    cases hpc : s.peerConnection <;> simp_all

theorem processSignalingMessage_setQueue (A : PCAdapter) (m : SigMsg)
    (s : CallServiceState) (q : List SigMsg) :
    processSignalingMessage A m { s with signalingQueue := q } =
      { processSignalingMessage A m s with signalingQueue := q } := by
  rcases s with ⟨pcf, ls, rs, sq, ip, rset, pend, sub, cid, ob, mr⟩
  cases pcf <;> cases ht : m.type <;>
    simp only [processSignalingMessage, processPendingCandidates, ht] <;>
    split_ifs <;> simp_all

end Calls

namespace Calls

theorem setQueue_self (s : CallServiceState) (q : List SigMsg)
    (h : s.signalingQueue = q) : { s with signalingQueue := q } = s := by
  rcases s; simp_all

theorem setFlag_self (s : CallServiceState) (b : Bool)
    (h : s.isProcessingSignal = b) : { s with isProcessingSignal := b } = s := by
  rcases s; simp_all

theorem processSignalingQueueGo_spec (A : PCAdapter) (msgs : List SigMsg)
    (s : CallServiceState) (h : s.isProcessingSignal = false) :
    processSignalingQueueGo A msgs.length { s with signalingQueue := msgs } =
      { msgs.foldl (fun q m => processSignalingMessage A m q) s with
        signalingQueue := [] } := by
  induction msgs generalizing s with
  | nil => rfl
  | cons m rest ih =>
    show processSignalingQueueGo A (rest.length + 1)
        { s with signalingQueue := m :: rest } = _
    rw [processSignalingQueueGo]
    dsimp only
    rw [if_neg (by simp [h])]
    rw [processSignalingMessage_setQueue A m s rest]
    have hp : (processSignalingMessage A m s).isProcessingSignal = false := by
      rw [processSignalingMessage_isProcessingSignal, h]
    rw [ih (processSignalingMessage A m s) hp]
    simp

theorem processSignalingQueue_spec (A : PCAdapter) (s : CallServiceState)
    (h : s.isProcessingSignal = false) :
    processSignalingQueue A s =
      { s.signalingQueue.foldl (fun q m => processSignalingMessage A m q) s with
        signalingQueue := [] } := by
  unfold processSignalingQueue
  exact processSignalingQueueGo_spec A s.signalingQueue s h

theorem handleSignalingMessage_quiescent (A : PCAdapter) (m : SigMsg)
    (s : CallServiceState) (hq : s.signalingQueue = [])
    (hp : s.isProcessingSignal = false) :
    handleSignalingMessage A m s = processSignalingMessage A m s := by
  unfold handleSignalingMessage
  dsimp only
  rw [if_neg (by simp [hp]), hq]
  simp only [List.nil_append]
  rw [processSignalingQueue_spec A { s with signalingQueue := [m] } (by simp [hp])]
  simp only [List.foldl_cons, List.foldl_nil]
  rw [processSignalingMessage_setQueue A m s [m]]
  show ({ processSignalingMessage A m s with
      signalingQueue := ([] : List SigMsg) }) = processSignalingMessage A m s
  exact setQueue_self _ _ (by rw [processSignalingMessage_signalingQueue, hq])

theorem foldl_handle_quiescent (A : PCAdapter) (msgs : List SigMsg)
    (s : CallServiceState) (hq : s.signalingQueue = [])
    (hp : s.isProcessingSignal = false) :
    msgs.foldl (fun q m => handleSignalingMessage A m q) s =
      msgs.foldl (fun q m => processSignalingMessage A m q) s := by
  induction msgs generalizing s with
  | nil => rfl
  | cons m rest ih =>
    simp only [List.foldl_cons, handleSignalingMessage_quiescent A m s hq hp]
    exact ih _ (by rw [processSignalingMessage_signalingQueue, hq])
      (by rw [processSignalingMessage_isProcessingSignal, hp])

theorem foldl_psm_signalingQueue (A : PCAdapter) (msgs : List SigMsg)
    (s : CallServiceState) :
    (msgs.foldl (fun q m => processSignalingMessage A m q) s).signalingQueue =
      s.signalingQueue := by
  induction msgs generalizing s with
  | nil => rfl
  | cons m rest ih =>
    simp [List.foldl_cons, ih, processSignalingMessage_signalingQueue]

theorem foldl_psm_isProcessingSignal (A : PCAdapter) (msgs : List SigMsg)
    (s : CallServiceState) :
    (msgs.foldl (fun q m => processSignalingMessage A m q) s).isProcessingSignal =
      s.isProcessingSignal := by
  induction msgs generalizing s with
  | nil => rfl
  | cons m rest ih =>
    simp [List.foldl_cons, ih, processSignalingMessage_isProcessingSignal]

theorem foldl_psm_setQueue (A : PCAdapter) (msgs : List SigMsg)
    (s : CallServiceState) (q : List SigMsg) :
    msgs.foldl (fun t m => processSignalingMessage A m t)
        { s with signalingQueue := q } =
      { msgs.foldl (fun t m => processSignalingMessage A m t) s with
        signalingQueue := q } := by
  induction msgs generalizing s with
  | nil => rfl
  | cons m rest ih =>
    simp only [List.foldl_cons, processSignalingMessage_setQueue A m s q, ih]

end Calls

namespace Calls

theorem quiescent_drain (A : PCAdapter) (s : CallServiceState)
    (hp : s.isProcessingSignal = false) (msgs : List SigMsg) :
    processSignalingQueue A { s with signalingQueue := msgs } =
      { msgs.foldl (fun q m => processSignalingMessage A m q) s with
        signalingQueue := [] } := by
  rw [processSignalingQueue_spec A { s with signalingQueue := msgs } (by simp [hp])]
  show ({ (msgs.foldl (fun q m => processSignalingMessage A m q)
      { s with signalingQueue := msgs }) with
      signalingQueue := ([] : List SigMsg) }) = _
  rw [foldl_psm_setQueue]

/-- C1: for every sequence of valid signaling messages delivered in
transport order, feeding them to the Negotiation Queue via
`handleSignalingMessage` (starting from a quiescent queue: empty inbox, no
drain in progress) yields exactly the states of applying
`processSignalingMessage` to each message synchronously in that same order,
and draining a pre-filled queue through `processSignalingQueue` yields that
same synchronous fold with the inbox emptied: the queue pops messages
strictly FIFO and never reorders them. -/
theorem C1_negotiation_queue_refines_sync (A : PCAdapter)
    (s0 : CallServiceState) (msgs : List SigMsg) :
    (msgs.foldl (fun q m => handleSignalingMessage A m q)
        { s0 with signalingQueue := [], isProcessingSignal := false }
      = msgs.foldl (fun q m => processSignalingMessage A m q)
          { s0 with signalingQueue := [], isProcessingSignal := false })
  ∧ (processSignalingQueue A
        { s0 with signalingQueue := msgs, isProcessingSignal := false }
      = { msgs.foldl (fun q m => processSignalingMessage A m q)
            { s0 with signalingQueue := [], isProcessingSignal := false } with
          signalingQueue := [] }) :=
  ⟨foldl_handle_quiescent A msgs _ rfl rfl,
   quiescent_drain A
     { s0 with signalingQueue := [], isProcessingSignal := false } rfl msgs⟩

end Calls

namespace Calls

/-- C2: every ice-candidate message arriving while the remote description
is not yet set is appended to `pendingCandidates` rather than dropped; and
once a remote description is successfully applied (by an offer, or by an
answer accepted in `have-local-offer`), all buffered candidates are handed
to the peer connection in the order received, after which the buffer is
emptied. -/
theorem C2_pending_candidates_buffered_and_flushed (A : PCAdapter)
    (s : CallServiceState) (pc : PCState)
    (hpc : s.peerConnection = some pc) :
    (∀ m : SigMsg, m.type = SigType.iceCandidate →
      s.isRemoteDescriptionSet = false →
      processSignalingMessage A m s =
        { s with pendingCandidates := s.pendingCandidates ++ [m.data] })
  ∧ (∀ m : SigMsg, m.type = SigType.offer →
      (processSignalingMessage A m s).pendingCandidates = [] ∧
      (processSignalingMessage A m s).peerConnection.map PCState.applied =
        some (pc.applied ++ s.pendingCandidates))
  ∧ (∀ m : SigMsg, m.type = SigType.answer →
      pc.signalingState = SignalingState.haveLocalOffer →
      (processSignalingMessage A m s).pendingCandidates = [] ∧
      (processSignalingMessage A m s).peerConnection.map PCState.applied =
        some (pc.applied ++ s.pendingCandidates)) := by
  refine ⟨?_, ?_, ?_⟩
  · intro m ht hr
    simp [processSignalingMessage, hpc, ht, hr]
  · intro m ht
    simp only [processSignalingMessage, hpc, ht]
    rw [processPendingCandidates_some _ (applyRemote pc DescType.offer m.data) rfl]
    simp [applyLocal, applyRemote, foldl_addIceCandidate_applied]
  · intro m ht hst
    simp only [processSignalingMessage, hpc, ht]
    rw [if_pos hst]
    rw [processPendingCandidates_some _ (applyRemote pc DescType.answer m.data) rfl]
    simp [applyRemote, foldl_addIceCandidate_applied]

/-- C4: an answer message is applied as a remote description only when the
peer connection's signaling state is exactly `have-local-offer`; a late or
duplicate answer arriving in any other state is a complete no-op on the
peer connection and the session state (only a warning is logged). -/
theorem C4_late_answer_noop (A : PCAdapter) (m : SigMsg)
    (s : CallServiceState) (pc : PCState)
    (hpc : s.peerConnection = some pc) (ht : m.type = SigType.answer)
    (hst : pc.signalingState ≠ SignalingState.haveLocalOffer) :
    processSignalingMessage A m s = s := by
  simp [processSignalingMessage, hpc, ht, hst]

/-- C8: `startConnection` is guarded against double start: whenever a peer
connection already exists, the call returns immediately with the state
completely unchanged - so no media is acquired, no second peer connection
is created, no signaling re-subscription happens, and no message is
published. -/
theorem C8_double_start_guard (gum : MediaReq → Option Nat) (A : PCAdapter)
    (callId userId otherUserId : String) (isCaller isVideoCall : Bool)
    (s : CallServiceState) (h : s.peerConnection.isSome = true) :
    startConnection gum A callId userId otherUserId isCaller isVideoCall s =
      (s, Except.ok ()) := by
  unfold startConnection
  simp [h]

end Calls

namespace Calls

theorem C2_witness :
    processSignalingMessage A0 mIce sIce = { sIce with pendingCandidates := [7] }
  ∧ ((processSignalingMessage A0 mOffer sPend).pendingCandidates = [] ∧
     (processSignalingMessage A0 mOffer sPend).peerConnection.map
       PCState.applied = some [7, 8])
  ∧ ((processSignalingMessage A0 mAnswer sAns).pendingCandidates = [] ∧
     (processSignalingMessage A0 mAnswer sAns).peerConnection.map
       PCState.applied = some [7, 8]) :=
  ⟨(C2_pending_candidates_buffered_and_flushed A0 sIce initialPCState rfl).1
      mIce rfl rfl,
   (C2_pending_candidates_buffered_and_flushed A0 sPend initialPCState rfl).2.1
      mOffer rfl,
   (C2_pending_candidates_buffered_and_flushed A0 sAns pcHLO rfl).2.2
      mAnswer rfl rfl⟩

theorem C4_witness : processSignalingMessage A0 mAnswer sIce = sIce :=
  C4_late_answer_noop A0 mAnswer sIce initialPCState rfl rfl (by decide)

theorem C8_witness :
    startConnection gumNone A0 "c" "u" "v" true true sIce =
      (sIce, Except.ok ()) :=
  C8_double_start_guard gumNone A0 "c" "u" "v" true true sIce rfl

end Calls

namespace Calls

/-- C7 counterexample: with media acquisition failing on both attempts,
`startConnection` performs the teardown but resolves with `Except.ok` - no
`MediaAcquisitionError` failure result is surfaced to the caller,
contradicting the claim that the call setup fails with a failure result. -/
theorem C7_counterexample :
    startConnection gumNone A0 "c" "u" "v" true true initialCallServiceState =
      ({ initialCallServiceState with mediaRequests :=
          [{ audio := true, video := true }, { audio := true, video := false }] },
       Except.ok ()) := rfl

/-- C7 (amended): when acquiring local media fails, `startConnection`
retries exactly once with an audio-only constraint; if that second attempt
also fails, it performs full teardown of the session via `cleanup` - but
the error is caught and swallowed, so the operation resolves normally and
no failure result reaches the caller. -/
theorem C7_media_fallback_teardown_no_error (gum : MediaReq → Option Nat)
    (A : PCAdapter) (callId userId otherUserId : String)
    (isCaller isVideoCall : Bool) (s : CallServiceState)
    (h0 : s.peerConnection = none)
    (h1 : gum { audio := true, video := isVideoCall } = none)
    (h2 : gum { audio := true, video := false } = none) :
    startConnection gum A callId userId otherUserId isCaller isVideoCall s =
      (cleanup { s with mediaRequests := s.mediaRequests ++
          [{ audio := true, video := isVideoCall },
           { audio := true, video := false }] },
       Except.ok ()) := by
  unfold startConnection
  simp [h0, h1, h2, List.append_assoc]

theorem C7_witness :
    startConnection gumNone A0 "c" "u" "v" true true initialCallServiceState =
      (cleanup { initialCallServiceState with mediaRequests :=
          [{ audio := true, video := true }, { audio := true, video := false }] },
       Except.ok ()) :=
  C7_media_fallback_teardown_no_error gumNone A0 "c" "u" "v" true true
    initialCallServiceState rfl rfl rfl

theorem setDocMerge_idem (st : Store) (callId : String)
    (patch : CallRecord → CallRecord)
    (hp : ∀ r, patch (patch r) = patch r) :
    setDocMerge (setDocMerge st callId patch) callId patch =
      setDocMerge st callId patch := by
  induction st with
  | nil => simp [setDocMerge, hp]
  | cons e rest ih =>
    rcases e with ⟨k, r⟩
    by_cases hk : k = callId <;> simp [setDocMerge, hk, hp, ih]

/-- C5 counterexample: `endCall` on a record already in the terminal status
`rejected` is not a no-op on the record - it overwrites the status to
`ended` and rewrites `endedAt` and `duration`. -/
theorem C5_counterexample :
    getDoc (endCall 9 "c1" none stRejected initialCallServiceState).1 "c1" =
      some { recRejected with
             status := CallStatus.ended
             endedAt := some 9
             duration := some 0 }
  ∧ recRejected.status = CallStatus.rejected :=
  ⟨rfl, rfl⟩

/-- C5 (amended): `endCall` and `closeWebRTCConnection` are idempotent at
the state level: repeating either call (with the same timestamp and
duration argument) produces exactly the state of a single call, with no
duplicate teardown effects, and `closeWebRTCConnection` is safe to call
when never started; however `endCall` does not check the current status, so
ending a call already in a different terminal status overwrites the record
(see the counterexample). -/
theorem C5_end_and_close_idempotent (now : Nat) (callId : String)
    (duration : Option Nat) (st : Store) (s : CallServiceState) :
    closeWebRTCConnection callId (closeWebRTCConnection callId s) =
      closeWebRTCConnection callId s
  ∧ endCall now callId duration (endCall now callId duration st s).1
      (endCall now callId duration st s).2.1 =
      endCall now callId duration st s := by
  constructor
  · rfl
  · show (setDocMerge (setDocMerge st callId _) callId _,
      closeWebRTCConnection callId (closeWebRTCConnection callId s),
      Except.ok ()) = _
    rw [setDocMerge_idem st callId
      (fun r => { r with
        status := CallStatus.ended
        endedAt := some now
        duration := some (duration.getD 0) })
      (fun r => rfl)]
    rfl

end Calls

namespace Calls

/-- C3 counterexample: `acceptCall` on an existing record whose status is
`answered` returns the `CallNotActive` failure and writes nothing to the
store, but it does mutate the service's local state: line 104 of the source
assigns `currentCallId` before any check runs. -/
theorem C3_counterexample :
    (acceptCall gumNone A0 2 "c1" "u2" stAnswered initialCallServiceState).2.2 =
      Except.error CallError.callNotActive
  ∧ (acceptCall gumNone A0 2 "c1" "u2" stAnswered initialCallServiceState).1 =
      stAnswered
  ∧ (acceptCall gumNone A0 2 "c1" "u2" stAnswered initialCallServiceState).2.1 ≠
      initialCallServiceState := by
  refine ⟨rfl, rfl, ?_⟩
  decide

/-- C3 (amended): for a stored record whose status is not `ringing`,
`acceptCall` fails with `CallNotActive` and performs no write to the shared
call record; if the record is absent it fails with `CallNotFound`, also
without a write; in both failure paths the only state change is that the
service's `currentCallId` is set to the requested call id (assigned before
the checks). -/
theorem C3_accept_non_ringing_no_store_write (gum : MediaReq → Option Nat)
    (A : PCAdapter) (now : Nat) (callId userId : String) (st : Store)
    (s : CallServiceState) :
    (getDoc st callId = none →
      acceptCall gum A now callId userId st s =
        (st, { s with currentCallId := callId },
         Except.error CallError.callNotFound))
  ∧ (∀ rec : CallRecord, getDoc st callId = some rec →
      rec.status ≠ CallStatus.ringing →
      acceptCall gum A now callId userId st s =
        (st, { s with currentCallId := callId },
         Except.error CallError.callNotActive)) := by
  constructor
  · intro h
    simp [acceptCall, h]
  · intro rec h hne
    simp [acceptCall, h, hne]

theorem C3_witness :
    acceptCall gumNone A0 2 "c9" "u2" ([] : Store) initialCallServiceState =
      (([] : Store), { initialCallServiceState with currentCallId := "c9" },
       Except.error CallError.callNotFound)
  ∧ acceptCall gumNone A0 2 "c1" "u2" stAnswered initialCallServiceState =
      (stAnswered, { initialCallServiceState with currentCallId := "c1" },
       Except.error CallError.callNotActive) :=
  ⟨(C3_accept_non_ringing_no_store_write gumNone A0 2 "c9" "u2" []
      initialCallServiceState).1 rfl,
   (C3_accept_non_ringing_no_store_write gumNone A0 2 "c1" "u2" stAnswered
      initialCallServiceState).2 recAnswered (by decide) (by decide)⟩

/-- C10: under JavaScript method-binding semantics the later definition of
`handleSignalingMessage` (lines 633-635) is the one bound at runtime, and
its body awaits itself, so for every signaling message and every amount of
fuel the bound handler produces no result - it never terminates, and the
earlier enqueue-and-drain definition is never reached through the public
entry point. -/
theorem C10_bound_handler_diverges (fuel : Nat) (m : SigMsg)
    (s : CallServiceState) :
    boundHandleSignalingMessage fuel m s = none := by
  induction fuel with
  | zero => rfl
  | succ n ih => exact ih

end Calls

namespace Calls

theorem drainLoop_inv (s : DrainLoop.LoopState) (h : DrainLoop.Reachable s) :
    s.nDispatch = if s.processing then 1 else 0 := by
  induction h with
  | refl => rfl
  | @tail t c hr step ih =>
    cases step with
    | arriveBusy m hp => simpa using ih
    | arriveIdle m hp => simpa using ih
    | checkExit h1 hcond => simpa using ih
    | checkEnter m rest h1 hq hp =>
      rw [hp] at ih
      simp at ih
      simp [ih]
    | dispatchExit h1 hq =>
      by_cases hpt : t.processing = true
      · rw [hpt] at ih; simp at ih; simp [ih]
      · simp [hpt] at ih; omega
    | dispatchPause h1 hq =>
      by_cases hpt : t.processing = true
      · rw [hpt] at ih; simp at ih; simp [ih]
      · simp [hpt] at ih; omega
    | pauseFire h1 => simpa using ih

/-- C6: in the event-loop interleaving semantics of the drain loop, every
state reachable from the quiescent initial state has at most one task
dispatching a message to the peer connection: two dispatches of
`processSignalingMessage` never run concurrently, including across the
inter-message pause and for messages that arrive while a dispatch is
suspended on an await. -/
theorem C6_dispatch_mutual_exclusion (s : DrainLoop.LoopState)
    (h : DrainLoop.Reachable s) : s.nDispatch ≤ 1 := by
  rw [drainLoop_inv s h]
  by_cases hp : s.processing <;> simp [hp]

theorem C6_witness :
    ({ queue := [], processing := true, nCheck := 0, nDispatch := 1
       nPause := 0 } : DrainLoop.LoopState).nDispatch ≤ 1 :=
  C6_dispatch_mutual_exclusion _
    (Relation.ReflTransGen.tail
      (Relation.ReflTransGen.single
        (DrainLoop.Step.arriveIdle DrainLoop.init
          { callId := "", type := SigType.offer, fromId := "", toId := ""
            data := 0 } rfl))
      (DrainLoop.Step.checkEnter _
        { callId := "", type := SigType.offer, fromId := "", toId := ""
          data := 0 } [] (by decide) rfl rfl))

/-- C9: evaluation of the incoming-call guard at the failing input.  The
subscription callback captures `manualCall`/`activeCall` from the render in
which its effect ran (dependency array `[user]`), so while the provider's
current state has a ringing manual call `c1`, the callback still sees the
mount-time snapshot (no manual call, no SDK call): an incoming offer for a
different call `c2` is therefore not rejected - it is surfaced, the
ringtone plays, and it replaces the active call, contradicting the
single-active-call guard the code itself intends (its log line says
"User already in a call, rejecting incoming manual call"). -/
theorem C9_stale_guard_eval :
    Provider.onIncomingCall
      { manualCall := none, activeCall := false }
      { callId := "c2", status := CallStatus.ringing }
      { manualCall := some { callId := "c1", status := CallStatus.ringing }
        activeCall := false
        ringtonePlaying := false
        rejectWrites := [] } =
      { manualCall := some { callId := "c2", status := CallStatus.ringing }
        activeCall := false
        ringtonePlaying := true
        rejectWrites := [] } := rfl

/-- With a fresh (non-stale) snapshot that matches the current state, the
same guard does reject the second call and does not ring: the guard logic
itself implements the spec, and only the stale closure defeats it. -/
theorem fresh_snapshot_guard_rejects :
    Provider.onIncomingCall
      { manualCall := some { callId := "c1", status := CallStatus.ringing }
        activeCall := false }
      { callId := "c2", status := CallStatus.ringing }
      { manualCall := some { callId := "c1", status := CallStatus.ringing }
        activeCall := false
        ringtonePlaying := false
        rejectWrites := [] } =
      { manualCall := some { callId := "c1", status := CallStatus.ringing }
        activeCall := false
        ringtonePlaying := false
        rejectWrites := ["c2"] } := rfl

end Calls
